import Mathlib

/-!
Verification development for the resume-to-PDF rendering engine of the
portfolio backend (`portfolio/pdf_generator.py`, `ResumePDFGenerator.generate_resume_pdf`,
against the data model of `portfolio/models.py`).

The renderer is embedded shallowly: a `Resume` value models the validated
snapshot the generator receives, and `generate_resume_pdf` produces the
ordered "story" of layout blocks handed to the external pagination engine
(ReportLab's `SimpleDocTemplate.build`), or an error.  Django/ReportLab
specifics are modelled as follows:

* `Paragraph(text, style)`, `Spacer`, `HRFlowable` and `Table` become the
  `Block` inductive; spacer heights and rule thicknesses are recorded in
  hundredths of a point (`0.1*inch` = 7.2pt = 720).
* Python string helpers (`str.split()`, `str.strip()`, `str.title()`,
  `str.upper()`, `str.split('\n')`) are embedded character-by-character
  over ASCII; `date.strftime('%b %Y')` becomes `fmtMonYYYY`.
* `queryset.order_by('-start_date')` is embedded as a stable descending
  sort on the date key (SQL `ORDER BY ... DESC`; NULL keys sort last as in
  SQLite, the project's default backend).  A relation manager `.all()`
  with no explicit `order_by` in the renderer yields the snapshot
  collection in its given order (default `Meta` ordering is applied by the
  excluded persistence layer that assembles the snapshot).
* `resume.resume_projects.all().order_by('-created_at')` references a field
  that `ResumeProject` (models.py, lines 94-107) does not declare, so
  iterating the queryset raises `django.core.exceptions.FieldError`; the
  generator therefore propagates an exception whenever the project
  collection is non-empty.  This is modelled by `projectsSection` returning
  `Except.error projectsFieldError`.
* `timezone.now().strftime('%B %d, %Y at %I:%M %p')` (footer timestamp) is
  an ambient wall-clock read; it is modelled as the explicit parameter
  `now : String` of `generate_resume_pdf`.
-/

/-- Whitespace recognised by Python `str.split()` / `str.strip()` (ASCII part). -/
def isPySpace (c : Char) : Bool :=
  c = ' ' || c = '\t' || c = '\n' || c = '\r' || c = '\x0b' || c = '\x0c'

/-- Drop trailing characters satisfying `p` (helper for `pyStrip`). -/
def dropTrailing (p : Char → Bool) (l : List Char) : List Char :=
  (l.reverse.dropWhile p).reverse

/-- Python `str.strip()`: remove leading and trailing whitespace. -/
def pyStrip (s : String) : String :=
  String.mk (dropTrailing isPySpace (s.data.dropWhile isPySpace))

/-- Accumulating worker for Python `str.split()` (split on whitespace runs,
no empty words). -/
def wordsAux : List Char → List Char → List (List Char)
  | [], acc => if acc = [] then [] else [acc.reverse]
  | c :: cs, acc =>
      if isPySpace c then
        if acc = [] then wordsAux cs [] else acc.reverse :: wordsAux cs []
      else wordsAux cs (c :: acc)

/-- Python `str.split()` with no argument: whitespace-separated words. -/
def pySplit (s : String) : List String :=
  (wordsAux s.data []).map String.mk

/-- Whitespace normalisation of the summary: `' '.join(resume.summary.split())`
(pdf_generator.py line 174). -/
def normalizeWs (s : String) : String :=
  String.intercalate " " (pySplit s)

/-- Worker for Python `str.title()`: uppercase a letter that follows a
non-letter, lowercase a letter that follows a letter. -/
def pyTitleAux : List Char → Bool → List Char
  | [], _ => []
  | c :: cs, prevAlpha =>
      if c.isAlpha then
        (if prevAlpha then c.toLower else c.toUpper) :: pyTitleAux cs true
      else c :: pyTitleAux cs false

/-- Python `str.title()` (ASCII): used on skill levels, line 220. -/
def pyTitle (s : String) : String :=
  String.mk (pyTitleAux s.data false)

/-- Python `str.upper()` (ASCII): used on the name, line 141. -/
def pyUpper (s : String) : String :=
  String.mk (s.data.map Char.toUpper)

/-- Calendar date, as used by the Django `DateField`s of the snapshot. -/
structure PyDate where
  year : Nat
  month : Nat
  day : Nat
deriving DecidableEq

/-- English month abbreviation of `strftime('%b')`. -/
def monthAbbrev : Nat → String
  | 1 => "Jan" | 2 => "Feb" | 3 => "Mar" | 4 => "Apr"
  | 5 => "May" | 6 => "Jun" | 7 => "Jul" | 8 => "Aug"
  | 9 => "Sep" | 10 => "Oct" | 11 => "Nov" | 12 => "Dec"
  | _ => ""

/-- Embedding of `d.strftime('%b %Y')` (lines 182-183 and 267-268). -/
def fmtMonYYYY (d : PyDate) : String :=
  monthAbbrev d.month ++ " " ++ toString d.year

/-- Linear key of a date, monotone in (year, month, day); used to embed
SQL `ORDER BY start_date DESC`. -/
def dateKey (d : PyDate) : Nat :=
  (d.year * 13 + d.month) * 32 + d.day

/-- Sort key of an optional date: a NULL date sorts last under `DESC`
(SQLite places NULLs first ascending). -/
def optDateKey : Option PyDate → Nat
  | none => 0
  | some d => dateKey d

/-- Experience row of the snapshot (models.py `Experience`; the renderer
treats `start_date`, `end_date` defensively as optional). -/
structure Experience where
  company : String
  position : String
  start_date : Option PyDate
  end_date : Option PyDate
  current : Bool
  description : String
deriving DecidableEq

/-- Education row of the snapshot (models.py `Education`). -/
structure Education where
  institution : String
  degree : String
  field_of_study : String
  start_date : Option PyDate
  end_date : Option PyDate
  current : Bool
  description : String
deriving DecidableEq

/-- Skill row of the snapshot (models.py `Skill`); `level` is a plain
string with default `intermediate`, `category` is unused by the renderer. -/
structure Skill where
  name : String
  level : String
deriving DecidableEq

/-- Resume-scoped project row (models.py `ResumeProject`).  Note that the
model has no `created_at` column. -/
structure Project where
  name : String
  description : String
  technologies : List String
  project_url : Option String
  github_url : Option String
  start_date : Option PyDate
  end_date : Option PyDate
deriving DecidableEq

/-- The validated resume snapshot handed to `generate_resume_pdf`
(models.py `Resume` plus its related collections). -/
structure Resume where
  name : String
  title : String
  email : String
  phone : String
  location : String
  summary : String
  github_url : Option String
  linkedin_url : Option String
  portfolio_url : Option String
  experiences : List Experience
  educations : List Education
  skills : List Skill
  resume_projects : List Project
deriving DecidableEq

/-- Layout blocks of the ReportLab story: `Spacer(w, h)`, `Paragraph(text, style)`,
`HRFlowable(thickness, color)` and `Table(rows)` with `(text, style)` cells.
Heights and thicknesses are in hundredths of a point. -/
inductive Block where
  | spacer (width heightCenti : Nat)
  | paragraph (text style : String)
  | hrule (thicknessCenti : Nat) (color : String)
  | table (rows : List (List (String × String)))
deriving DecidableEq

/-- Errors the generator can raise. -/
inductive PdfError where
  | fieldError (msg : String)
deriving DecidableEq

/-- The `FieldError` Django raises when the projects queryset ordered by the
nonexistent `created_at` column is iterated (line 240 vs models.py 94-107). -/
def projectsFieldError : PdfError :=
  PdfError.fieldError "FieldError: cannot resolve keyword created_at into a field of ResumeProject"

/-- Left side of the date range: `exp.start_date.strftime('%b %Y') if exp.start_date else ''`. -/
def dateRangeLeft : Option PyDate → String
  | some d => fmtMonYYYY d
  | none => ""

/-- Right side of the date range:
`"Present" if current else (end_date.strftime('%b %Y') if end_date else "")`. -/
def dateRangeRight (current : Bool) (endDate : Option PyDate) : String :=
  if current then "Present"
  else match endDate with
    | some d => fmtMonYYYY d
    | none => ""

/-- Full date range string of lines 182-183 / 267-268. -/
def dateRange (startDate endDate : Option PyDate) (current : Bool) : String :=
  dateRangeLeft startDate ++ " - " ++ dateRangeRight current endDate

/-- Date range of one experience entry. -/
def expDateRange (e : Experience) : String :=
  dateRange e.start_date e.end_date e.current

/-- Date range of one education entry. -/
def eduDateRange (e : Education) : String :=
  dateRange e.start_date e.end_date e.current

/-- Stable descending sort on a numeric key: the embedding of
`queryset.order_by('-field')`. -/
def sortDescBy {α : Type} (key : α → Nat) (l : List α) : List α :=
  List.insertionSort (fun a b => key b ≤ key a) l

/-- Blocks of `add_section_header` (lines 114-124): spacer, section title
paragraph, horizontal rule in the primary color. -/
def sectionHeader (title : String) : List Block :=
  [Block.spacer 1 720, Block.paragraph title "SectionTitle", Block.hrule 100 "#2E86AB"]

/-- Truthy optional URL wrapped as a labelled entry (`f"LinkedIn: {url}"` etc.). -/
def optLabeled (label : String) : Option String → List String
  | some s => if s ≠ "" then [label ++ s] else []
  | none => []

/-- Header section (lines 139-168): name upper-cased as title, optional
contact line joined by a bullet separator, optional social-links line. -/
def headerSection (r : Resume) : List Block :=
  [Block.spacer 1 720, Block.paragraph (pyUpper r.name) "NameTitle"]
  ++ (let contact_parts :=
        (if r.email ≠ "" then [r.email] else [])
        ++ (if r.phone ≠ "" then [r.phone] else [])
        ++ (if r.location ≠ "" then [r.location] else [])
      if contact_parts ≠ [] then
        [Block.paragraph (String.intercalate " • " contact_parts) "ContactInfo"]
      else [])
  ++ (let social_links :=
        optLabeled "LinkedIn: " r.linkedin_url
        ++ optLabeled "GitHub: " r.github_url
        ++ optLabeled "Portfolio: " r.portfolio_url
      if social_links ≠ [] then
        [Block.paragraph (String.intercalate " | " social_links) "LinkStyle"]
      else [])
  ++ [Block.spacer 1 1440]

/-- Summary section (lines 171-175): guarded by the truthiness of
`resume.summary and resume.summary.strip()`. -/
def summarySection (r : Resume) : List Block :=
  if r.summary ≠ "" ∧ pyStrip r.summary ≠ "" then
    sectionHeader "PROFESSIONAL SUMMARY"
    ++ [Block.paragraph (normalizeWs r.summary) "SummaryText"]
  else []

/-- Sort key for `order_by('-start_date')` on experiences. -/
def expStartKey (e : Experience) : Nat := optDateKey e.start_date

/-- Sort key for `order_by('-start_date')` on educations. -/
def eduStartKey (e : Education) : Nat := optDateKey e.start_date

/-- Table rows of one experience entry (lines 186-195): bold company plus
date range, then position plus an empty date cell. -/
def expRowsOf (e : Experience) : List (List (String × String)) :=
  [[("<b>" ++ e.company ++ "</b>", "Company"), (expDateRange e, "Date")],
   [(e.position, "Position"), ("", "Date")]]

/-- Bullet paragraphs of a description (lines 206-209): split on newlines,
drop blank lines, prefix each kept line with a bullet. -/
def bulletsOf (description : String) : List Block :=
  ((description.splitOn "\n").filter (fun line => pyStrip line ≠ "")).map
    (fun line => Block.paragraph ("• " ++ pyStrip line) "CustomBodyText")

/-- Blocks of one experience entry: the two-row table, optional bullets,
trailing spacer (loop body of lines 180-210). -/
def renderExperienceEntry (e : Experience) : List Block :=
  [Block.table (expRowsOf e)]
  ++ (if e.description ≠ "" then bulletsOf e.description else [])
  ++ [Block.spacer 1 720]

/-- Experience section (lines 177-210): header plus entries ordered by
`order_by('-start_date')`, emitted only when the collection is non-empty. -/
def experienceSection (r : Resume) : List Block :=
  if r.experiences ≠ [] then
    sectionHeader "PROFESSIONAL EXPERIENCE"
    ++ (sortDescBy expStartKey r.experiences).flatMap renderExperienceEntry
  else []

/-- Grouping key of a skill: `skill.level.title() if skill.level else "Other"`
(line 220). -/
def levelKeyOf (s : Skill) : String :=
  if s.level = "" then "Other" else pyTitle s.level

/-- Lookup in the level dictionary (`skills_by_level.get(level, [])`). -/
def dictGet (d : List (String × List String)) (k : String) : List String :=
  match d.find? (fun p => p.1 == k) with
  | some p => p.2
  | none => []

/-- Key membership in the level dictionary (`level not in skills_by_level`). -/
def dictHasKey (d : List (String × List String)) (k : String) : Bool :=
  d.any (fun p => p.1 == k)

/-- In-place append to the list stored under a key
(`skills_by_level[level].append(skill.name)`). -/
def dictAppend (d : List (String × List String)) (k v : String) :
    List (String × List String) :=
  d.map (fun p => if p.1 = k then (p.1, p.2 ++ [v]) else p)

/-- Loop body of lines 218-223: skip empty names, compute the level key,
create a missing bucket, append the skill name to its bucket. -/
def addSkill (d : List (String × List String)) (s : Skill) :
    List (String × List String) :=
  if s.name ≠ "" then
    let key := levelKeyOf s
    let d2 := if dictHasKey d key then d else d ++ [(key, [])]
    dictAppend d2 key s.name
  else d

/-- Initial level dictionary of line 217: four preset empty buckets. -/
def initDict : List (String × List String) :=
  [("Beginner", []), ("Intermediate", []), ("Advanced", []), ("Expert", [])]

/-- The level dictionary after the grouping loop, starting from the four
preset empty buckets of line 217. -/
def skillsByLevel (skills : List Skill) : List (String × List String) :=
  skills.foldl addSkill initDict

/-- Fixed display order of line 226. -/
def orderedLevels : List String :=
  ["Expert", "Advanced", "Intermediate", "Beginner"]

/-- Markup of a bucket label (line 233). -/
def labelMarkup (level : String) : String :=
  "<b><font color=\"black\">" ++ level ++ ":</font></b>"

/-- Blocks of one display bucket (lines 229-235): label, comma-joined names,
spacer, emitted only when the bucket is non-empty. -/
def renderSkillLevel (d : List (String × List String)) (level : String) :
    List Block :=
  let skills := dictGet d level
  if skills ≠ [] then
    [Block.paragraph (labelMarkup level) "Position",
     Block.paragraph (String.intercalate ", " skills) "CustomBodyText",
     Block.spacer 1 720]
  else []

/-- Skills section for a skill collection (lines 213-235). -/
def renderSkillsSection (skills : List Skill) : List Block :=
  if skills ≠ [] then
    sectionHeader "TECHNICAL SKILLS"
    ++ orderedLevels.flatMap (renderSkillLevel (skillsByLevel skills))
  else []

/-- Skills section of the snapshot. -/
def skillsSection (r : Resume) : List Block :=
  renderSkillsSection r.skills

/-- Blocks one project entry would contribute (loop body of lines 240-261).
The loop never executes: iterating the queryset raises `FieldError` first. -/
def renderProjectEntry (p : Project) : List Block :=
  [Block.paragraph ("<b>" ++ p.name ++ "</b>") "Company"]
  ++ (let links :=
        (match p.project_url with
         | some u => if u ≠ "" then ["Live Demo: " ++ u] else []
         | none => [])
        ++ (match p.github_url with
            | some u => if u ≠ "" then ["Source Code: " ++ u] else []
            | none => [])
      if links ≠ [] then
        [Block.paragraph (String.intercalate " | " links) "LinkStyle"]
      else [])
  ++ (if p.description ≠ "" then
        [Block.paragraph p.description "CustomBodyText"]
      else [])
  ++ (if p.technologies ≠ [] then
        [Block.paragraph ("<b>Technologies:</b> " ++ String.intercalate ", " p.technologies)
          "CustomBodyText"]
      else [])
  ++ [Block.spacer 1 720]

/-- Projects section (lines 238-261): when the collection is non-empty the
renderer iterates `resume_projects.all().order_by('-created_at')`, and
`ResumeProject` has no `created_at` field, so Django raises `FieldError`
before any entry is produced; the exception aborts the whole render. -/
def projectsSection (r : Resume) : Except PdfError (List Block) :=
  if r.resume_projects ≠ [] then Except.error projectsFieldError
  else Except.ok []

/-- Table rows of one education entry (lines 270-285): institution plus date
range, degree plus blank cell, optional field-of-study row. -/
def eduRowsOf (e : Education) : List (List (String × String)) :=
  [[("<b>" ++ e.institution ++ "</b>", "Company"), (eduDateRange e, "Date")],
   [(e.degree, "Position"), ("", "Date")]]
  ++ (if e.field_of_study ≠ "" then
        [[("Field: " ++ e.field_of_study, "CustomBodyText"), ("", "Date")]]
      else [])

/-- Blocks of one education entry (loop body of lines 266-297). -/
def renderEducationEntry (e : Education) : List Block :=
  [Block.table (eduRowsOf e)]
  ++ (if e.description ≠ "" then
        [Block.paragraph e.description "CustomBodyText"]
      else [])
  ++ [Block.spacer 1 720]

/-- Education section (lines 263-297). -/
def educationSection (r : Resume) : List Block :=
  if r.educations ≠ [] then
    sectionHeader "EDUCATION"
    ++ (sortDescBy eduStartKey r.educations).flatMap renderEducationEntry
  else []

/-- Footer (lines 299-311): thin rule in the secondary color, then the
generation-timestamp paragraph. -/
def footerSection (now : String) : List Block :=
  [Block.hrule 50 "#6C757D",
   Block.paragraph ("Generated on " ++ now) "ContactInfo"]

/-- Embedding of `ResumePDFGenerator.generate_resume_pdf` (lines 126-316):
assembles the story in the fixed order header, summary, experience, skills,
projects, education, footer.  The wall-clock timestamp is the parameter
`now`.  A non-empty project collection raises `FieldError` (see
`projectsSection`), discarding the partially built story. -/
def generate_resume_pdf (r : Resume) (now : String) :
    Except PdfError (List Block) :=
  match projectsSection r with
  | Except.error e => Except.error e
  | Except.ok projBlocks =>
      Except.ok (headerSection r ++ summarySection r ++ experienceSection r
        ++ skillsSection r ++ projBlocks ++ educationSection r
        ++ footerSection now)

/-- Rows of all tables among a block sequence, in order. -/
def tablesOf (blocks : List Block) : List (List (List (String × String))) :=
  blocks.filterMap (fun b =>
    match b with
    | Block.table rows => some rows
    | _ => none)

/-- Texts of all paragraphs in the `Position` style (the bucket labels of
the skills section). -/
def skillLabelTexts (blocks : List Block) : List String :=
  blocks.filterMap (fun b =>
    match b with
    | Block.paragraph t "Position" => some t
    | _ => none)

/-- Texts of all paragraphs in the `CustomBodyText` style (the comma-joined
skill lines of the skills section). -/
def skillLineTexts (blocks : List Block) : List String :=
  blocks.filterMap (fun b =>
    match b with
    | Block.paragraph t "CustomBodyText" => some t
    | _ => none)

/-- Boolean predicate used to characterise a display bucket: non-empty name
and matching level key. -/
def skillMatches (k : String) (s : Skill) : Bool :=
  (s.name != "") && (levelKeyOf s == k)

/-- Snapshot with a non-empty name and every optional field absent. -/
def sparseResume : Resume :=
  { name := "Jane Doe", title := "", email := "", phone := "", location := "",
    summary := "", github_url := none, linkedin_url := none,
    portfolio_url := none, experiences := [], educations := [], skills := [],
    resume_projects := [] }

/-- Snapshot whose required name is the empty string. -/
def blankNameResume : Resume :=
  { sparseResume with name := "" }

/-- Two experiences supplied in ascending date order, to exercise the
renderer's re-sorting. -/
def expAlpha : Experience :=
  { company := "Alpha", position := "Engineer",
    start_date := some { year := 2019, month := 1, day := 1 },
    end_date := some { year := 2020, month := 12, day := 31 },
    current := false, description := "" }

/-- Second, more recent experience of the re-sorting example. -/
def expBeta : Experience :=
  { company := "Beta", position := "Developer",
    start_date := some { year := 2021, month := 6, day := 1 },
    end_date := none, current := true, description := "" }

/-- Snapshot whose experiences arrive in ascending start-date order. -/
def twoExpResume : Resume :=
  { sparseResume with experiences := [expAlpha, expBeta] }

/-- A resume-scoped project entry. -/
def sampleProject : Project :=
  { name := "Portfolio Site", description := "A personal site.",
    technologies := ["Django"], project_url := none, github_url := none,
    start_date := some { year := 2023, month := 2, day := 1 },
    end_date := none }

/-- Snapshot with one project, triggering the `created_at` FieldError. -/
def oneProjectResume : Resume :=
  { sparseResume with resume_projects := [sampleProject] }

/-- Snapshot whose summary needs whitespace normalisation. -/
def helloResume : Resume :=
  { sparseResume with summary := "Hello\n\n  world" }

/-- Skill collection with two expert skills, an empty-named skill and an
unknown-level skill. -/
def witnessSkills : List Skill :=
  [{ name := "Go", level := "expert" }, { name := "SQL", level := "expert" },
   { name := "", level := "beginner" }, { name := "X", level := "wizard" }]

/-- A string of pure whitespace splits into no words. -/
theorem wordsAux_eq_nil_of_all (l : List Char) (h : l.all isPySpace = true) :
    wordsAux l [] = [] := by
  induction l with
  | nil => rfl
  | cons c cs ih =>
      simp only [List.all_cons, Bool.and_eq_true] at h
      simp [wordsAux, h.1, ih h.2]

/-- If the normalised summary is non-empty, the source string has a
non-whitespace character. -/
theorem not_all_space_of_normalizeWs_ne (s : String)
    (h : normalizeWs s ≠ "") : s.data.all isPySpace = false := by
  by_contra hall
  apply h
  have hw : wordsAux s.data [] = [] :=
    wordsAux_eq_nil_of_all s.data (by revert hall; cases s.data.all isPySpace <;> simp)
  simp [normalizeWs, pySplit, hw, String.intercalate]

/-- A string with a non-whitespace character is non-empty. -/
theorem ne_empty_of_not_all_space (s : String)
    (h : s.data.all isPySpace = false) : s ≠ "" := by
  intro he
  subst he
  simp at h

/-- Stripping a string that has a non-whitespace character leaves a
non-empty string. -/
theorem pyStrip_ne_of_not_all_space (s : String)
    (h : s.data.all isPySpace = false) : pyStrip s ≠ "" := by
  have hex : ∃ c ∈ s.data, ¬ (isPySpace c = true) := by
    have hne : ¬ (s.data.all isPySpace = true) := by simp [h]
    rw [List.all_eq_true] at hne
    push_neg at hne
    simpa using hne
  obtain ⟨c, hc, hcs⟩ := hex
  have hmem : c ∈ s.data.dropWhile isPySpace := by
    have hsplit := List.takeWhile_append_dropWhile (p := isPySpace) (l := s.data)
    have : c ∈ s.data.takeWhile isPySpace ∨ c ∈ s.data.dropWhile isPySpace := by
      rw [← List.mem_append, hsplit]; exact hc
    rcases this with htk | hdr
    · exact absurd (List.mem_takeWhile_imp htk) hcs
    · exact hdr
  intro he
  have hdata : dropTrailing isPySpace (s.data.dropWhile isPySpace) = [] := by
    have := congrArg String.data he
    simpa [pyStrip] using this
  have hrev : (s.data.dropWhile isPySpace).reverse.dropWhile isPySpace = [] := by
    have := congrArg List.reverse hdata
    simpa [dropTrailing] using this
  rw [List.dropWhile_eq_nil_iff] at hrev
  exact hcs (hrev c (by simpa using hmem))

/-- Lookup skips a head pair with a different key. -/
theorem dictGet_cons_ne (p : String × List String)
    (t : List (String × List String)) (k : String)
    (h : (p.1 == k) = false) : dictGet (p :: t) k = dictGet t k := by
  simp [dictGet, List.find?, h]

/-- Lookup returns the head pair when its key matches. -/
theorem dictGet_cons_eq (p : String × List String)
    (t : List (String × List String)) (k : String)
    (h : (p.1 == k) = true) : dictGet (p :: t) k = p.2 := by
  simp [dictGet, List.find?, h]

/-- Mutating one bucket rewrites the dictionary pair by pair. -/
theorem dictAppend_cons (p : String × List String)
    (t : List (String × List String)) (k v : String) :
    dictAppend (p :: t) k v
      = (if p.1 = k then (p.1, p.2 ++ [v]) else p) :: dictAppend t k v := by
  simp [dictAppend]

/-- A key that is not in the dictionary has the empty bucket. -/
theorem dictGet_eq_nil_of_not_hasKey (d : List (String × List String))
    (k : String) (h : dictHasKey d k = false) : dictGet d k = [] := by
  induction d with
  | nil => rfl
  | cons p t ih =>
      simp only [dictHasKey, List.any_cons, Bool.or_eq_false_iff] at h
      rw [dictGet_cons_ne p t k h.1]
      exact ih (by simp [dictHasKey, h.2])

/-- Appending a value under a present key extends exactly that bucket. -/
theorem dictGet_dictAppend_self (d : List (String × List String))
    (k v : String) (h : dictHasKey d k = true) :
    dictGet (dictAppend d k v) k = dictGet d k ++ [v] := by
  induction d with
  | nil => simp [dictHasKey] at h
  | cons p t ih =>
      rw [dictAppend_cons]
      by_cases hp : p.1 = k
      · have hpb : (p.1 == k) = true := by simp [hp]
        rw [if_pos hp, dictGet_cons_eq _ _ k (by simpa using hpb),
          dictGet_cons_eq p t k hpb]
      · have hpb : (p.1 == k) = false := by simp [hp]
        have ht : dictHasKey t k = true := by
          simpa [dictHasKey, hpb] using h
        rw [if_neg hp, dictGet_cons_ne p _ k hpb, dictGet_cons_ne p t k hpb]
        exact ih ht

/-- Appending under one key leaves every other bucket unchanged. -/
theorem dictGet_dictAppend_ne (d : List (String × List String))
    (k k2 v : String) (h : k2 ≠ k) :
    dictGet (dictAppend d k v) k2 = dictGet d k2 := by
  induction d with
  | nil => rfl
  | cons p t ih =>
      rw [dictAppend_cons]
      by_cases hp : (p.1 == k2) = true
      · have hpk2 : p.1 = k2 := by simpa using hp
        have hne : ¬ (p.1 = k) := fun hc => h (hpk2 ▸ hc)
        rw [if_neg hne, dictGet_cons_eq p _ k2 hp, dictGet_cons_eq p t k2 hp]
      · have hp2 : (p.1 == k2) = false := by
          revert hp; cases p.1 == k2 <;> simp
        have hfst : ((if p.1 = k then (p.1, p.2 ++ [v]) else p)).1 = p.1 := by
          by_cases hc : p.1 = k <;> simp [hc]
        rw [dictGet_cons_ne _ _ k2 (by rw [hfst]; exact hp2),
          dictGet_cons_ne p t k2 hp2]
        exact ih

/-- Looking up a freshly created bucket finds its initial contents. -/
theorem dictGet_append_new (d : List (String × List String))
    (k : String) (l : List String) (h : dictHasKey d k = false) :
    dictGet (d ++ [(k, l)]) k = l := by
  induction d with
  | nil => simp [dictGet, List.find?]
  | cons p t ih =>
      simp only [dictHasKey, List.any_cons, Bool.or_eq_false_iff] at h
      rw [List.cons_append, dictGet_cons_ne p _ k h.1]
      exact ih (by simp [dictHasKey, h.2])

/-- Creating a bucket under one key leaves every other bucket unchanged. -/
theorem dictGet_append_other (d : List (String × List String))
    (k k2 : String) (l : List String) (h : k2 ≠ k) :
    dictGet (d ++ [(k, l)]) k2 = dictGet d k2 := by
  induction d with
  | nil =>
      have hkk : (k == k2) = false := by
        simp only [beq_eq_false_iff_ne, ne_eq]
        exact fun hc => h hc.symm
      simp [dictGet, List.find?, hkk]
  | cons p t ih =>
      by_cases hp : (p.1 == k2) = true
      · rw [List.cons_append, dictGet_cons_eq p _ k2 hp, dictGet_cons_eq p t k2 hp]
      · have hp2 : (p.1 == k2) = false := by
          revert hp; cases p.1 == k2 <;> simp
        rw [List.cons_append, dictGet_cons_ne p _ k2 hp2,
          dictGet_cons_ne p t k2 hp2]
        exact ih

/-- A freshly appended key is present. -/
theorem dictHasKey_append_self (d : List (String × List String))
    (k : String) (l : List String) : dictHasKey (d ++ [(k, l)]) k = true := by
  simp [dictHasKey]

/-- Effect of one loop iteration on an arbitrary bucket. -/
theorem dictGet_addSkill (d : List (String × List String)) (s : Skill)
    (k : String) :
    dictGet (addSkill d s) k
      = dictGet d k ++ (if skillMatches k s then [s.name] else []) := by
  by_cases hn : s.name = ""
  · have hm : skillMatches k s = false := by simp [skillMatches, hn]
    simp [addSkill, hn, hm]
  · by_cases hk : levelKeyOf s = k
    · have hm : skillMatches k s = true := by simp [skillMatches, hn, hk]
      rw [hm]
      by_cases hh : dictHasKey d (levelKeyOf s) = true
      · simp only [addSkill, hn, ne_eq, not_false_iff, if_true, hh, if_pos]
        rw [hk] at hh ⊢
        exact dictGet_dictAppend_self d k s.name hh
      · have hh2 : dictHasKey d (levelKeyOf s) = false := by
          revert hh; cases dictHasKey d (levelKeyOf s) <;> simp
        simp only [addSkill, hn, ne_eq, not_false_iff, if_true, hh2,
          Bool.false_eq_true, if_false]
        rw [hk] at hh2 ⊢
        rw [dictGet_dictAppend_self _ k s.name (dictHasKey_append_self d k []),
          dictGet_append_new d k [] hh2,
          dictGet_eq_nil_of_not_hasKey d k hh2]
    · have hm : skillMatches k s = false := by simp [skillMatches, hk]
      rw [hm]
      by_cases hh : dictHasKey d (levelKeyOf s) = true
      · simp only [addSkill, hn, ne_eq, not_false_iff, if_true, hh, if_pos]
        rw [dictGet_dictAppend_ne _ _ k s.name (fun hc => hk hc.symm)]
        simp
      · have hh2 : dictHasKey d (levelKeyOf s) = false := by
          revert hh; cases dictHasKey d (levelKeyOf s) <;> simp
        simp only [addSkill, hn, ne_eq, not_false_iff, if_true, hh2,
          Bool.false_eq_true, if_false]
        rw [dictGet_dictAppend_ne _ _ k s.name (fun hc => hk hc.symm),
          dictGet_append_other d _ k [] (fun hc => hk hc.symm)]
        simp

/-- Bucket contents after folding the grouping loop over the whole skill
collection: the names of the matching skills, appended in input order. -/
theorem dictGet_foldl_addSkill (skills : List Skill)
    (d : List (String × List String)) (k : String) :
    dictGet (skills.foldl addSkill d) k
      = dictGet d k ++ (skills.filter (skillMatches k)).map Skill.name := by
  induction skills generalizing d with
  | nil => simp
  | cons s t ih =>
      rw [List.foldl_cons, ih (addSkill d s), dictGet_addSkill d s k,
        List.filter_cons]
      by_cases hm : skillMatches k s = true
      · simp [hm]
      · have hm2 : skillMatches k s = false := by
          revert hm; cases skillMatches k s <;> simp
        simp [hm2]

/-- Skills with empty names are invisible to the grouping loop. -/
theorem foldl_addSkill_filter_names (skills : List Skill)
    (d : List (String × List String)) :
    (skills.filter (fun s => s.name != "")).foldl addSkill d
      = skills.foldl addSkill d := by
  induction skills generalizing d with
  | nil => rfl
  | cons s t ih =>
      by_cases hn : s.name = ""
      · have hb : (s.name != "") = false := by simp [hn]
        have hskip : addSkill d s = d := by simp [addSkill, hn]
        rw [List.filter_cons, hb, List.foldl_cons, hskip]
        simpa using ih d
      · have hb : (s.name != "") = true := by simp [hn]
        simp only [List.filter_cons, hb, if_true, List.foldl_cons]
        exact ih (addSkill d s)

/-- The four preset buckets start empty. -/
theorem dictGet_initDict_of_mem (k : String) (h : k ∈ orderedLevels) :
    dictGet initDict k = [] := by
  simp only [orderedLevels, List.mem_cons, List.not_mem_nil, or_false] at h
  rcases h with h | h | h | h <;> subst h <;> rfl

/-- A key outside the four preset buckets starts absent. -/
theorem dictGet_initDict_of_not_mem (k : String) (h : k ∉ orderedLevels) :
    dictGet initDict k = [] := by
  simp only [orderedLevels, List.mem_cons, List.not_mem_nil, or_false] at h
  push_neg at h
  obtain ⟨h1, h2, h3, h4⟩ := h
  apply dictGet_eq_nil_of_not_hasKey
  simp only [initDict, dictHasKey, List.any_cons, List.any_nil,
    Bool.or_false, Bool.or_eq_false_iff, beq_eq_false_iff_ne, ne_eq]
  exact ⟨fun hc => h4 hc.symm, fun hc => h3 hc.symm,
    fun hc => h2 hc.symm, fun hc => h1 hc.symm⟩

/-- Display buckets are exactly the matching skills of the input, in input
order. -/
theorem skillsByLevel_get (skills : List Skill) (k : String)
    (h : k ∈ orderedLevels) :
    dictGet (skillsByLevel skills) k
      = (skills.filter (skillMatches k)).map Skill.name := by
  rw [skillsByLevel, dictGet_foldl_addSkill, dictGet_initDict_of_mem k h,
    List.nil_append]

/-- Any bucket, preset or created, holds the matching skill names. -/
theorem skillsByLevel_get_not_mem (skills : List Skill) (k : String)
    (h : k ∉ orderedLevels) :
    dictGet (skillsByLevel skills) k
      = (skills.filter (skillMatches k)).map Skill.name := by
  rw [skillsByLevel, dictGet_foldl_addSkill, dictGet_initDict_of_not_mem k h,
    List.nil_append]

/-- The section header contributes no `Position` paragraphs. -/
theorem skillLabelTexts_sectionHeader (t : String) :
    skillLabelTexts (sectionHeader t) = [] := rfl

/-- The section header contributes no `CustomBodyText` paragraphs. -/
theorem skillLineTexts_sectionHeader (t : String) :
    skillLineTexts (sectionHeader t) = [] := rfl

/-- Label extraction distributes over concatenation. -/
theorem skillLabelTexts_append (a b : List Block) :
    skillLabelTexts (a ++ b) = skillLabelTexts a ++ skillLabelTexts b :=
  List.filterMap_append a b _

/-- Line extraction distributes over concatenation. -/
theorem skillLineTexts_append (a b : List Block) :
    skillLineTexts (a ++ b) = skillLineTexts a ++ skillLineTexts b :=
  List.filterMap_append a b _

/-- Labels contributed by one display bucket. -/
theorem skillLabelTexts_renderSkillLevel (d : List (String × List String))
    (level : String) :
    skillLabelTexts (renderSkillLevel d level)
      = if dictGet d level ≠ [] then [labelMarkup level] else [] := by
  by_cases h : dictGet d level = []
  · simp [renderSkillLevel, h, skillLabelTexts]
  · simp [renderSkillLevel, h, skillLabelTexts, List.filterMap]

/-- Lines contributed by one display bucket. -/
theorem skillLineTexts_renderSkillLevel (d : List (String × List String))
    (level : String) :
    skillLineTexts (renderSkillLevel d level)
      = if dictGet d level ≠ [] then
          [String.intercalate ", " (dictGet d level)]
        else [] := by
  by_cases h : dictGet d level = []
  · simp [renderSkillLevel, h, skillLineTexts]
  · simp [renderSkillLevel, h, skillLineTexts, List.filterMap]

/-- Labels of the bucket loop: one label per non-empty bucket, in the fixed
display order. -/
theorem skillLabelTexts_flatMap (ls : List String)
    (d : List (String × List String)) :
    skillLabelTexts (ls.flatMap (renderSkillLevel d))
      = (ls.filter (fun L => dictGet d L ≠ [])).map labelMarkup := by
  induction ls with
  | nil => rfl
  | cons L rest ih =>
      rw [List.flatMap_cons, skillLabelTexts_append,
        skillLabelTexts_renderSkillLevel, List.filter_cons]
      by_cases h : dictGet d L = []
      · simp [h, ih]
      · simp [h, ih]

/-- Lines of the bucket loop: one comma-joined line per non-empty bucket. -/
theorem skillLineTexts_flatMap (ls : List String)
    (d : List (String × List String)) :
    skillLineTexts (ls.flatMap (renderSkillLevel d))
      = (ls.filter (fun L => dictGet d L ≠ [])).map
          (fun L => String.intercalate ", " (dictGet d L)) := by
  induction ls with
  | nil => rfl
  | cons L rest ih =>
      rw [List.flatMap_cons, skillLineTexts_append,
        skillLineTexts_renderSkillLevel, List.filter_cons]
      by_cases h : dictGet d L = []
      · simp [h, ih]
      · simp [h, ih]

/-- A bucket's blocks depend on the dictionary only through the bucket. -/
theorem renderSkillLevel_congr (d1 d2 : List (String × List String))
    (level : String) (h : dictGet d1 level = dictGet d2 level) :
    renderSkillLevel d1 level = renderSkillLevel d2 level := by
  unfold renderSkillLevel
  rw [h]

/-- Paragraph-only block lists contribute no tables. -/
theorem tablesOf_map_paragraph (f : String → String) (st : String)
    (xs : List String) :
    tablesOf (xs.map (fun x => Block.paragraph (f x) st)) = [] := by
  induction xs with
  | nil => rfl
  | cons x rest ih => simp [tablesOf, List.filterMap_cons]

/-- Table extraction distributes over concatenation. -/
theorem tablesOf_append (a b : List Block) :
    tablesOf (a ++ b) = tablesOf a ++ tablesOf b :=
  List.filterMap_append a b _

/-- One experience entry contributes exactly its own table. -/
theorem tablesOf_renderExperienceEntry (e : Experience) :
    tablesOf (renderExperienceEntry e) = [expRowsOf e] := by
  unfold renderExperienceEntry
  rw [tablesOf_append, tablesOf_append]
  by_cases h : e.description = ""
  · simp [h, tablesOf, List.filterMap_cons]
  · simp [h, tablesOf, List.filterMap_cons, bulletsOf,
      tablesOf_map_paragraph (fun line => "• " ++ pyStrip line) "CustomBodyText"]

/-- One education entry contributes exactly its own table. -/
theorem tablesOf_renderEducationEntry (e : Education) :
    tablesOf (renderEducationEntry e) = [eduRowsOf e] := by
  unfold renderEducationEntry
  rw [tablesOf_append, tablesOf_append]
  by_cases h : e.description = ""
  · simp [h, tablesOf, List.filterMap_cons]
  · simp [h, tablesOf, List.filterMap_cons]

/-- Tables of the experience loop, one per entry in loop order. -/
theorem tablesOf_flatMap_exp (l : List Experience) :
    tablesOf (l.flatMap renderExperienceEntry) = l.map expRowsOf := by
  induction l with
  | nil => rfl
  | cons e rest ih =>
      rw [List.flatMap_cons, tablesOf_append, tablesOf_renderExperienceEntry,
        List.map_cons, ih]
      rfl

/-- Tables of the education loop, one per entry in loop order. -/
theorem tablesOf_flatMap_edu (l : List Education) :
    tablesOf (l.flatMap renderEducationEntry) = l.map eduRowsOf := by
  induction l with
  | nil => rfl
  | cons e rest ih =>
      rw [List.flatMap_cons, tablesOf_append, tablesOf_renderEducationEntry,
        List.map_cons, ih]
      rfl

/-- The section header contributes no tables. -/
theorem tablesOf_sectionHeader (t : String) : tablesOf (sectionHeader t) = [] := rfl

/-- The embedded `order_by` produces a permutation of its input. -/
theorem sortDescBy_perm {α : Type} (key : α → Nat) (l : List α) :
    List.Perm (sortDescBy key l) l :=
  List.perm_insertionSort _ l

/-- The embedded `order_by` sorts descending on the key. -/
theorem sortDescBy_pairwise {α : Type} (key : α → Nat) (l : List α) :
    List.Pairwise (fun a b => key b ≤ key a) (sortDescBy key l) := by
  haveI : IsTotal α (fun a b => key b ≤ key a) :=
    ⟨fun a b => Nat.le_total (key b) (key a)⟩
  haveI : IsTrans α (fun a b => key b ≤ key a) :=
    ⟨fun a b c h1 h2 => Nat.le_trans h2 h1⟩
  exact List.sorted_insertionSort _ l

/-- C3: for every Experience entry with `current = true`, the rendered date
range's end side is exactly the string "Present", for every value of
`end_date`, present or absent. -/
theorem claim_C3_current_renders_present (e : Experience)
    (d : Option PyDate) (h : e.current = true) :
    expDateRange { e with end_date := d }
      = dateRangeLeft e.start_date ++ " - " ++ "Present" := by
  simp [expDateRange, dateRange, dateRangeRight, h]

/-- Witness for C3 at a concrete entry that carries an end date. -/
theorem claim_C3_witness :
    expBeta.current = true ∧
      expDateRange { expBeta with end_date := some { year := 2022, month := 3, day := 5 } }
        = dateRangeLeft expBeta.start_date ++ " - " ++ "Present" :=
  ⟨rfl, claim_C3_current_renders_present expBeta
    (some { year := 2022, month := 3, day := 5 }) rfl⟩

/-- C4: for Experience and Education entries with `current = false` and
`end_date` absent the rendered end side is the empty string, and with
`start_date` absent the rendered left side is the empty string. -/
theorem claim_C4_absent_dates_render_empty (e : Experience) (ed : Education) :
    (e.current = false → e.end_date = none →
      dateRangeRight e.current e.end_date = "" ∧
        expDateRange e = dateRangeLeft e.start_date ++ " - " ++ "") ∧
    (ed.current = false → ed.end_date = none →
      dateRangeRight ed.current ed.end_date = "" ∧
        eduDateRange ed = dateRangeLeft ed.start_date ++ " - " ++ "") ∧
    (e.start_date = none →
      dateRangeLeft e.start_date = "" ∧
        expDateRange e = "" ++ " - " ++ dateRangeRight e.current e.end_date) ∧
    (ed.start_date = none →
      dateRangeLeft ed.start_date = "" ∧
        eduDateRange ed = "" ++ " - " ++ dateRangeRight ed.current ed.end_date) := by
  refine ⟨fun hc he => ?_, fun hc he => ?_, fun hs => ?_, fun hs => ?_⟩
  · rw [hc, he]
    exact ⟨rfl, by simp [expDateRange, dateRange, hc, he, dateRangeRight]⟩
  · rw [hc, he]
    exact ⟨rfl, by simp [eduDateRange, dateRange, hc, he, dateRangeRight]⟩
  · rw [hs]
    exact ⟨rfl, by simp [expDateRange, dateRange, hs, dateRangeLeft]⟩
  · rw [hs]
    exact ⟨rfl, by simp [eduDateRange, dateRange, hs, dateRangeLeft]⟩

/-- Witness for C4 at concrete entries. -/
theorem claim_C4_witness :
    (dateRangeRight expAlpha.current none = "" ∧
      expDateRange { expAlpha with end_date := none }
        = dateRangeLeft expAlpha.start_date ++ " - " ++ "") ∧
    (dateRangeLeft (none : Option PyDate) = "" ∧
      expDateRange { expAlpha with start_date := none }
        = "" ++ " - " ++ dateRangeRight expAlpha.current expAlpha.end_date) := by
  constructor
  · exact (claim_C4_absent_dates_render_empty { expAlpha with end_date := none }
      { institution := "", degree := "", field_of_study := "",
        start_date := none, end_date := none, current := false,
        description := "" }).1 rfl rfl
  · exact (claim_C4_absent_dates_render_empty { expAlpha with start_date := none }
      { institution := "", degree := "", field_of_study := "",
        start_date := none, end_date := none, current := false,
        description := "" }).2.2.1 rfl

/-- C7 (code bug): a snapshot with any resume project makes the generator
raise the `created_at` FieldError instead of rendering a PROJECTS section:
`order_by('-created_at')` names a column `ResumeProject` does not have. -/
theorem claim_C7_projects_raise_field_error :
    generate_resume_pdf oneProjectResume "Jul 04, 2025 at 09:00 AM"
      = Except.error projectsFieldError := rfl

/-- Dropping the last block of a story that ends with the footer removes
exactly the timestamp paragraph. -/
theorem dropLast_append_footer (l : List Block) (now : String) :
    (l ++ footerSection now).dropLast = l ++ [Block.hrule 50 "#6C757D"] := by
  rw [show l ++ footerSection now
      = (l ++ [Block.hrule 50 "#6C757D"])
        ++ [Block.paragraph ("Generated on " ++ now) "ContactInfo"] by
    simp [footerSection], List.dropLast_concat]

/-- C9: rendering is deterministic up to the footer timestamp — two renders
of the same snapshot agree once the final timestamp paragraph is dropped. -/
theorem claim_C9_deterministic_up_to_timestamp (r : Resume) (t1 t2 : String) :
    (generate_resume_pdf r t1).map List.dropLast
      = (generate_resume_pdf r t2).map List.dropLast := by
  unfold generate_resume_pdf projectsSection
  by_cases hp : r.resume_projects ≠ []
  · rw [if_pos hp]
  · rw [if_neg hp]
    simp only [Except.map]
    rw [show ∀ t : String,
        headerSection r ++ summarySection r ++ experienceSection r
          ++ skillsSection r ++ [] ++ educationSection r ++ footerSection t
        = (headerSection r ++ summarySection r ++ experienceSection r
            ++ skillsSection r ++ [] ++ educationSection r) ++ footerSection t
      from fun t => by simp,
      dropLast_append_footer, dropLast_append_footer]

/-- C1: a well-typed snapshot with a non-empty name and every optional field
absent renders without error to a non-empty story: the name title block, the
header spacers and the footer. -/
theorem claim_C1_sparse_snapshot_renders (r : Resume) (now : String)
    (_hname : r.name ≠ "") (he : r.email = "") (hp : r.phone = "")
    (hl : r.location = "") (hs : r.summary = "")
    (hg : r.github_url = none) (hli : r.linkedin_url = none)
    (hpo : r.portfolio_url = none) (hexp : r.experiences = [])
    (hedu : r.educations = []) (hsk : r.skills = [])
    (hpr : r.resume_projects = []) :
    generate_resume_pdf r now
      = Except.ok ([Block.spacer 1 720,
          Block.paragraph (pyUpper r.name) "NameTitle",
          Block.spacer 1 1440] ++ footerSection now) ∧
    ([Block.spacer 1 720, Block.paragraph (pyUpper r.name) "NameTitle",
        Block.spacer 1 1440] ++ footerSection now) ≠ [] := by
  constructor
  · simp [generate_resume_pdf, projectsSection, hpr, headerSection, he, hp,
      hl, hg, hli, hpo, optLabeled, summarySection, hs, experienceSection,
      hexp, skillsSection, renderSkillsSection, hsk, educationSection, hedu]
  · simp

/-- Witness for C1 at the concrete sparse snapshot. -/
theorem claim_C1_witness :
    sparseResume.name ≠ "" ∧
      (generate_resume_pdf sparseResume "May 01, 2025 at 10:00 AM"
          = Except.ok ([Block.spacer 1 720,
              Block.paragraph (pyUpper sparseResume.name) "NameTitle",
              Block.spacer 1 1440]
            ++ footerSection "May 01, 2025 at 10:00 AM") ∧
        ([Block.spacer 1 720,
            Block.paragraph (pyUpper sparseResume.name) "NameTitle",
            Block.spacer 1 1440]
          ++ footerSection "May 01, 2025 at 10:00 AM") ≠ []) :=
  ⟨by decide,
   claim_C1_sparse_snapshot_renders sparseResume "May 01, 2025 at 10:00 AM"
     (by decide) rfl rfl rfl rfl rfl rfl rfl rfl rfl rfl rfl⟩

/-- C2 counterexample: on a snapshot whose name is the empty string the
generator does not fail; it returns a document whose title paragraph is
blank (the second block below), refuting the claimed fail-fast behaviour. -/
theorem claim_C2_counterexample_blank_title :
    generate_resume_pdf blankNameResume "Jan 01, 2025 at 12:00 PM"
      = Except.ok [Block.spacer 1 720, Block.paragraph "" "NameTitle",
          Block.spacer 1 1440, Block.hrule 50 "#6C757D",
          Block.paragraph "Generated on Jan 01, 2025 at 12:00 PM" "ContactInfo"] :=
  rfl

/-- C2 amended: the generator performs no validation of the name: for every
snapshot with an empty name (and an empty project collection, which would
otherwise fail for the unrelated `created_at` defect) it succeeds and the
returned story contains a blank title paragraph. -/
theorem claim_C2_amended_no_name_validation (r : Resume) (now : String)
    (hname : r.name = "") (hpr : r.resume_projects = []) :
    ∃ story, generate_resume_pdf r now = Except.ok story ∧
      Block.paragraph "" "NameTitle" ∈ story := by
  refine ⟨headerSection r ++ summarySection r ++ experienceSection r
      ++ skillsSection r ++ [] ++ educationSection r ++ footerSection now,
    ?_, ?_⟩
  · simp [generate_resume_pdf, projectsSection, hpr]
  · have hup : pyUpper r.name = "" := by rw [hname]; rfl
    simp [headerSection, hup]

/-- Witness for C2's amended statement at the concrete blank-name snapshot. -/
theorem claim_C2_amended_witness :
    ∃ story,
      generate_resume_pdf blankNameResume "Jan 01, 2025 at 12:00 PM"
          = Except.ok story ∧
        Block.paragraph "" "NameTitle" ∈ story :=
  claim_C2_amended_no_name_validation blankNameResume
    "Jan 01, 2025 at 12:00 PM" rfl rfl

/-- C5 counterexample: for the snapshot whose experiences arrive in
ascending date order, the rendered table sequence is not the input
sequence — the renderer re-sorts via `order_by('-start_date')`. -/
theorem claim_C5_counterexample_reorders :
    tablesOf (experienceSection twoExpResume)
      ≠ twoExpResume.experiences.map expRowsOf := by
  decide

/-- C5 amended: experience and education entries are rendered sorted
descending by `start_date` (a permutation of the input reordered by the
renderer's `order_by`, not the input order), and the projects loop never
renders at all — any non-empty project collection raises the `created_at`
FieldError. -/
theorem claim_C5_amended_order_by (r : Resume) (now : String) :
    tablesOf (experienceSection r)
        = (sortDescBy expStartKey r.experiences).map expRowsOf ∧
      List.Perm (sortDescBy expStartKey r.experiences) r.experiences ∧
      List.Pairwise (fun a b => expStartKey b ≤ expStartKey a)
        (sortDescBy expStartKey r.experiences) ∧
      tablesOf (educationSection r)
        = (sortDescBy eduStartKey r.educations).map eduRowsOf ∧
      List.Perm (sortDescBy eduStartKey r.educations) r.educations ∧
      List.Pairwise (fun a b => eduStartKey b ≤ eduStartKey a)
        (sortDescBy eduStartKey r.educations) ∧
      (r.resume_projects ≠ [] →
        generate_resume_pdf r now = Except.error projectsFieldError) := by
  refine ⟨?_, sortDescBy_perm _ _, sortDescBy_pairwise _ _,
    ?_, sortDescBy_perm _ _, sortDescBy_pairwise _ _, ?_⟩
  · unfold experienceSection
    by_cases h : r.experiences = []
    · simp [h, tablesOf, sortDescBy, List.insertionSort]
    · rw [if_pos h, tablesOf_append, tablesOf_sectionHeader,
        tablesOf_flatMap_exp, List.nil_append]
  · unfold educationSection
    by_cases h : r.educations = []
    · simp [h, tablesOf, sortDescBy, List.insertionSort]
    · rw [if_pos h, tablesOf_append, tablesOf_sectionHeader,
        tablesOf_flatMap_edu, List.nil_append]
  · intro hp
    simp [generate_resume_pdf, projectsSection, hp]

/-- Witness for C5's amended statement: the concrete two-experience snapshot
renders its tables in sorted order, and adding a project raises the error. -/
theorem claim_C5_amended_witness :
    tablesOf (experienceSection twoExpResume)
        = (sortDescBy expStartKey twoExpResume.experiences).map expRowsOf ∧
      generate_resume_pdf { twoExpResume with resume_projects := [sampleProject] }
          "T0"
        = Except.error projectsFieldError :=
  ⟨(claim_C5_amended_order_by twoExpResume "T0").1,
   (claim_C5_amended_order_by
      { twoExpResume with resume_projects := [sampleProject] } "T0").2.2.2.2.2.2
     (by decide)⟩

/-- C6: skills with an empty name never reach the grouping (the level
dictionary is unchanged by dropping them), each display bucket holds exactly
the names of the skills whose level key matches it in input order, and the
rendered labels and comma-joined lines appear once per non-empty bucket in
the fixed order Expert, Advanced, Intermediate, Beginner. -/
theorem claim_C6_skill_grouping (skills : List Skill) :
    (skillsByLevel skills
        = skillsByLevel (skills.filter (fun s => s.name != ""))) ∧
      (∀ L, L ∈ orderedLevels →
        dictGet (skillsByLevel skills) L
          = (skills.filter (skillMatches L)).map Skill.name) ∧
      skillLabelTexts (renderSkillsSection skills)
        = (orderedLevels.filter
            (fun L => dictGet (skillsByLevel skills) L ≠ [])).map labelMarkup ∧
      skillLineTexts (renderSkillsSection skills)
        = (orderedLevels.filter
            (fun L => dictGet (skillsByLevel skills) L ≠ [])).map
              (fun L => String.intercalate ", "
                (dictGet (skillsByLevel skills) L)) := by
  refine ⟨?_, fun L hL => skillsByLevel_get skills L hL, ?_, ?_⟩
  · rw [skillsByLevel, skillsByLevel, foldl_addSkill_filter_names]
  · by_cases h : skills = []
    · subst h
      decide
    · unfold renderSkillsSection
      rw [if_pos h, skillLabelTexts_append, skillLabelTexts_sectionHeader,
        skillLabelTexts_flatMap, List.nil_append]
  · by_cases h : skills = []
    · subst h
      decide
    · unfold renderSkillsSection
      rw [if_pos h, skillLineTexts_append, skillLineTexts_sectionHeader,
        skillLineTexts_flatMap, List.nil_append]

/-- Witness for C6 at a concrete collection with duplicate-level, empty-name
and unknown-level skills. -/
theorem claim_C6_witness :
    ("Expert" ∈ orderedLevels) ∧
      dictGet (skillsByLevel witnessSkills) "Expert"
        = (witnessSkills.filter (skillMatches "Expert")).map Skill.name ∧
      skillLabelTexts (renderSkillsSection witnessSkills)
        = (orderedLevels.filter
            (fun L => dictGet (skillsByLevel witnessSkills) L ≠ [])).map
              labelMarkup :=
  ⟨by decide, (claim_C6_skill_grouping witnessSkills).2.1 "Expert" (by decide),
   (claim_C6_skill_grouping witnessSkills).2.2.1⟩

/-- The bucket loop depends on the dictionary only through the displayed
buckets. -/
theorem flatMap_renderSkillLevel_congr (ls : List String)
    (d1 d2 : List (String × List String))
    (h : ∀ L ∈ ls, dictGet d1 L = dictGet d2 L) :
    ls.flatMap (renderSkillLevel d1) = ls.flatMap (renderSkillLevel d2) := by
  induction ls with
  | nil => rfl
  | cons L rest ih =>
      rw [List.flatMap_cons, List.flatMap_cons,
        renderSkillLevel_congr d1 d2 L (h L (List.mem_cons_self L rest)),
        ih (fun L2 hL2 => h L2 (List.mem_cons_of_mem L hL2))]

/-- C10: a skill with an empty level lands in the "Other" bucket, a skill
whose title-cased level is not one of the four display levels lands in the
bucket named by that key, and in either case the displayed bucket loop is
unchanged when all such skills are removed — they are grouped but never
rendered. -/
theorem claim_C10_unknown_levels_grouped_but_dropped (skills : List Skill)
    (s : Skill) (hmem : s ∈ skills) (hname : s.name ≠ "")
    (hunk : levelKeyOf s ∉ orderedLevels) :
    (s.level = "" → levelKeyOf s = "Other") ∧
      s.name ∈ dictGet (skillsByLevel skills) (levelKeyOf s) ∧
      orderedLevels.flatMap (renderSkillLevel (skillsByLevel skills))
        = orderedLevels.flatMap (renderSkillLevel (skillsByLevel
            (skills.filter (fun t => levelKeyOf t ∈ orderedLevels)))) := by
  refine ⟨fun h => by simp [levelKeyOf, h], ?_, ?_⟩
  · rw [skillsByLevel_get_not_mem skills _ hunk]
    refine List.mem_map.mpr ⟨s, List.mem_filter.mpr ⟨hmem, ?_⟩, rfl⟩
    simp [skillMatches, hname]
  · apply flatMap_renderSkillLevel_congr
    intro L hL
    rw [skillsByLevel_get skills L hL, skillsByLevel_get _ L hL,
      List.filter_filter]
    apply congrArg (List.map Skill.name)
    apply List.filter_congr
    intro t ht
    by_cases hm : skillMatches L t = true
    · have hkey : levelKeyOf t = L := by
        have := hm
        simp only [skillMatches, Bool.and_eq_true, beq_iff_eq] at this
        exact this.2
      rw [hm, hkey]
      simp [hL]
    · have hm2 : skillMatches L t = false := by
        revert hm; cases skillMatches L t <;> simp
      rw [hm2]
      simp

/-- Witness for C10 at a concrete collection containing an unknown-level
skill. -/
theorem claim_C10_witness :
    (Skill.mk "X" "wizard" ∈ witnessSkills) ∧
      (Skill.mk "X" "wizard").name ≠ "" ∧
      levelKeyOf (Skill.mk "X" "wizard") ∉ orderedLevels ∧
      (Skill.mk "X" "wizard").name
        ∈ dictGet (skillsByLevel witnessSkills)
            (levelKeyOf (Skill.mk "X" "wizard")) :=
  ⟨by decide, by decide, by decide,
   (claim_C10_unknown_levels_grouped_but_dropped witnessSkills
      (Skill.mk "X" "wizard") (by decide) (by decide) (by decide)).2.1⟩

/-- C8: a summary that is non-empty after whitespace normalisation renders
as the "PROFESSIONAL SUMMARY" header followed by the normalised text, in
which every whitespace run collapses to one space; in particular the
summary with embedded newlines and double spaces renders as one line. -/
theorem claim_C8_summary_normalization :
    (∀ (r : Resume), normalizeWs r.summary ≠ "" →
      summarySection r
        = sectionHeader "PROFESSIONAL SUMMARY"
          ++ [Block.paragraph (normalizeWs r.summary) "SummaryText"]) ∧
      normalizeWs "Hello\n\n  world" = "Hello world" := by
  constructor
  · intro r h
    have hall := not_all_space_of_normalizeWs_ne r.summary h
    unfold summarySection
    rw [if_pos ⟨ne_empty_of_not_all_space _ hall,
      pyStrip_ne_of_not_all_space _ hall⟩]
  · decide

/-- Witness for C8 at the concrete snapshot with a newline-ridden summary. -/
theorem claim_C8_witness :
    (normalizeWs helloResume.summary ≠ "") ∧
      summarySection helloResume
        = sectionHeader "PROFESSIONAL SUMMARY"
          ++ [Block.paragraph (normalizeWs helloResume.summary) "SummaryText"] :=
  ⟨by decide, claim_C8_summary_normalization.1 helloResume (by decide)⟩
